import Mathlib

/-!
Shallow embedding of the generational iteration framework in
`src/klipper_sdk/src/klipper_sdk/generational.py`.

Conventions of the embedding:
- Python objects become Lean structures; mutating methods become functions
  from state to state (returning the method's result where it has one).
- Python dynamic values (the `Union[int, float, str, bool]` metric values and
  the plain `Dict[str, Any]` phase-result mappings) become the inductive
  `Value`; Python floats are modelled as rationals (the only float literals in
  the source, 0.88 and 0.9, are exact decimals).
- Python dicts become insertion-ordered association lists with first-match
  lookup and overwrite-in-place on re-insertion, matching dict semantics for
  the operations the source uses.
- Wall-clock reads (`time.time()`, `datetime.now().isoformat()`) are
  nondeterministic inputs; they are threaded as explicit parameters
  (`now : Nat` for metric timestamps, `nowStr : String` for snapshot
  timestamps). No claim observes them.
- `register_artifact` reads file bytes to compute an md5 checksum; the file
  system read is abstracted as the explicit `checksum` input.
- The optional persistence callback of `GenerationTracker` is an external
  observer invoked with the snapshot's serialization; it is not part of the
  tracker's own state and is not represented in `GenerationTracker` below.
-/

/-- A dynamic Python value as used by the source's metric values and
phase-result mappings. -/
inductive Value where
  | bool : Bool → Value
  | int : Int → Value
  | rat : ℚ → Value
  | str : String → Value
  | listStr : List String → Value
  | none : Value
deriving DecidableEq, Repr

/-- Python truthiness (`not x` in the source's early-exit test) restricted to
the `Value` constructors: `False`, `0`, `0.0`, `""`, `[]` and `None` are
falsy, everything else truthy. -/
def Value.truthy : Value → Bool
  | .bool b => b
  | .int i => decide (i ≠ 0)
  | .rat q => decide (q ≠ 0)
  | .str s => decide (s ≠ "")
  | .listStr xs => decide (xs ≠ [])
  | .none => false

/-- A Python `dict` of dynamic values: insertion-ordered association list. -/
abbrev Dict := List (String × Value)

/-- The `d.get(k, default)`. -/
def dictGetD (d : Dict) (k : String) (default : Value) : Value :=
  match d.find? (fun kv => kv.1 == k) with
  | some kv => kv.2
  | Option.none => default

/-- The `d[k]` as an optional lookup (`d.get(k)` with default `None` folded into
`Option`). -/
def dictGet? (d : Dict) (k : String) : Option Value :=
  (d.find? (fun kv => kv.1 == k)).map (fun kv => kv.2)

/-- The `GenerationPhase` enum: the five phases of the improvement loop. -/
inductive GenerationPhase where
  | TEST | ANALYZE | APPLY | ADVANCE | VALIDATE
deriving DecidableEq, Repr

/-- The `ComponentStatus` enum. -/
inductive ComponentStatus where
  | ALPHA | BETA | STABLE | DEPRECATED
deriving DecidableEq, Repr

/-- The `GenerationMetric` dataclass: a single metric data point. -/
structure GenerationMetric where
  name : String
  value : Value
  timestamp : Nat
  tags : List (String × String)
deriving DecidableEq, Repr

/-- The `GenerationArtifact` dataclass. -/
structure GenerationArtifact where
  name : String
  artifact_type : String
  path : String
  hash_sum : String
  metadata : List (String × Value) := []
deriving DecidableEq, Repr

/-- The `GenerationSnapshot` dataclass: the sealed record of one generation. -/
structure GenerationSnapshot where
  gen_id : Nat
  component_name : String
  timestamp : String
  status : ComponentStatus
  metrics : List GenerationMetric
  artifacts : List (String × GenerationArtifact)
  changelog : List String
  parent_gen_id : Option Nat
deriving DecidableEq, Repr

/-- Mutable state of a `GenerationTracker` object (the Python fields
`current_generation`, `history`, `_current_metrics`, `_current_artifacts`;
`component_name` is fixed at construction). -/
structure GenerationTracker where
  component_name : String
  current_generation : Nat
  history : List GenerationSnapshot
  current_metrics : List GenerationMetric
  current_artifacts : List (String × GenerationArtifact)
deriving DecidableEq, Repr

/-- The `GenerationTracker.__init__`. -/
def GenerationTracker.init (component_name : String) : GenerationTracker :=
  { component_name := component_name
    current_generation := 0
    history := []
    current_metrics := []
    current_artifacts := [] }

/-- The `GenerationTracker.start_next_generation`: increments the counter, clears
the open working set, returns the new generation id. -/
def start_next_generation (t : GenerationTracker) : Nat × GenerationTracker :=
  let g := t.current_generation + 1
  (g, { t with current_generation := g, current_metrics := [], current_artifacts := [] })

/-- The `GenerationTracker.log_metric`: appends a metric to the open working set.
`now` is the `time.time()` read. -/
def log_metric (t : GenerationTracker) (name : String) (value : Value)
    (tags : List (String × String)) (now : Nat) : GenerationTracker :=
  { t with current_metrics :=
      t.current_metrics ++ [{ name := name, value := value, timestamp := now, tags := tags }] }

/-- Overwrite-or-append update of an insertion-ordered association list
(Python `d[k] = v`): replaces the first binding of `k` in place, appending a
new binding when `k` is absent. Every dict the source builds has unique keys,
for which this is exactly dict assignment. -/
def assocSet {α : Type} (l : List (String × α)) (k : String) (v : α) : List (String × α) :=
  match l with
  | [] => [(k, v)]
  | kv :: rest => if kv.1 == k then (k, v) :: rest else kv :: assocSet rest k v

/-- The `GenerationTracker.register_artifact`: records an artifact in the open
working set under `name`, overwriting any prior artifact with that name.
The md5-of-file-bytes computation (or the string `"unknown"` when the path is
not a regular file) is abstracted as the explicit `checksum` input. -/
def register_artifact (t : GenerationTracker) (name path type_hint checksum : String) :
    GenerationTracker :=
  let artifact : GenerationArtifact :=
    { name := name, artifact_type := type_hint, path := path, hash_sum := checksum }
  { t with current_artifacts := assocSet t.current_artifacts name artifact }

/-- The `GenerationTracker.finalize_generation`: seals the open working set into a
snapshot appended to history. `notes` is the optional changelog argument
(`notes or []` in the source; `Option.getD` agrees with it since `[] or []`
is `[]`). `nowStr` is the `datetime.now().isoformat()` read. The persistence
callback, when present, is an external observer of the returned snapshot. -/
def finalize_generation (t : GenerationTracker) (status : ComponentStatus)
    (notes : Option (List String)) (nowStr : String) :
    GenerationSnapshot × GenerationTracker :=
  let snapshot : GenerationSnapshot :=
    { gen_id := t.current_generation
      component_name := t.component_name
      timestamp := nowStr
      status := status
      metrics := t.current_metrics
      artifacts := t.current_artifacts
      changelog := notes.getD []
      parent_gen_id := (t.history.getLast?).map (fun s => s.gen_id) }
  (snapshot, { t with history := t.history ++ [snapshot] })

/-- The `GenerationTracker.get_metric_trend`: scans history in order; for each
snapshot, the first metric matching `metric_name` (the inner loop's `break`)
contributes a `(gen_id, value)` pair; snapshots with no match are skipped. -/
def get_metric_trend (history : List GenerationSnapshot) (metric_name : String) :
    List (Nat × Value) :=
  match history with
  | [] => []
  | snap :: rest =>
    match snap.metrics.find? (fun m => m.name == metric_name) with
    | some m => (snap.gen_id, m.value) :: get_metric_trend rest metric_name
    | Option.none => get_metric_trend rest metric_name

/-!
`GenerationalBlueprintManager`: blueprints are text files under a fixed
`storage_root` directory (created by the constructor, flat). The file system
is modelled as the manager's map from file names to the bytes written
(`save` overwrites, `load` is lookup plus the text-mode read translation).
The source runs `open(path, "w", ...)` / `path.read_text(...)` in text mode
on POSIX: writing stores the string's characters unchanged (`"\n" ->
os.linesep` is the identity there), while reading applies universal-newline
translation, turning every `"\r\n"` pair and every lone `"\r"` into `"\n"`.
A file name that contains a path separator points into a subdirectory of the
(flat, existing) storage root, so `open` raises instead of storing; an
embedded NUL raises as well; both are modelled as `save` returning `none`.
Unencodable content is not representable: Lean strings are valid Unicode,
which UTF-8 always encodes. The returned storage location string
`str(storage_root / filename)` is modelled as
`storage_root ++ "/" ++ filename`.
-/

/-- State of a `GenerationalBlueprintManager`: the storage root and the files
currently on disk under it (file name → content, last write wins). -/
structure GenerationalBlueprintManager where
  storage_root : String
  files : List (String × String)
deriving DecidableEq, Repr

/-- The file name `f"{name}_v{version_tag}.kl"` used by both `save_blueprint`
and `load_blueprint`. -/
def blueprint_filename (name version_tag : String) : String :=
  name ++ "_v" ++ version_tag ++ ".kl"

/-- The `GenerationalBlueprintManager.save_blueprint`: writes `content` to
`storage_root / filename`, returning the path string. `open(path, "w",
encoding="utf-8")` raises instead of storing when the file name contains a
path separator (the path then points into a subdirectory that does not
exist under the flat storage root) or an embedded NUL; those error paths
return `none`. On POSIX the text-mode write stores the characters of
`content` unchanged. -/
def save_blueprint (m : GenerationalBlueprintManager) (name content version_tag : String) :
    Option (String × GenerationalBlueprintManager) :=
  if (blueprint_filename name version_tag).data.contains (Char.ofNat 47) ||
      (blueprint_filename name version_tag).data.contains (Char.ofNat 0) then
    Option.none
  else
    some (m.storage_root ++ "/" ++ blueprint_filename name version_tag,
      { m with files := assocSet m.files (blueprint_filename name version_tag) content })

/-- Universal-newline translation of text-mode reading (`newline=None`, as
`path.read_text(encoding="utf-8")` uses): each `"\r\n"` pair and each lone
`"\r"` becomes `"\n"`. The flag records whether the previous character was a
carriage return (for which `"\n"` has already been emitted), so that a
following line feed is swallowed. -/
def universalNewlinesAux : Bool → List Char → List Char
  | _, [] => []
  | sawCR, c :: rest =>
    if c = Char.ofNat 13 then
      Char.ofNat 10 :: universalNewlinesAux true rest
    else if sawCR = true ∧ c = Char.ofNat 10 then
      universalNewlinesAux false rest
    else
      c :: universalNewlinesAux false rest

/-- Universal-newline translation on strings. -/
def universalNewlines (s : String) : String :=
  String.mk (universalNewlinesAux false s.data)

/-- The `GenerationalBlueprintManager.load_blueprint`: reads the file in text
mode — stored bytes with universal-newline translation applied — if it
exists, else returns `None`. -/
def load_blueprint (m : GenerationalBlueprintManager) (name version_tag : String) :
    Option String :=
  (m.files.find? (fun kv => kv.1 == blueprint_filename name version_tag)).map
    (fun kv => universalNewlines kv.2)

/-- The `GenerationalBlueprintManager.diff_blueprints`: loads both versions; if
either is missing returns the single error line; otherwise returns
`list(difflib.unified_diff(b1.splitlines(), b2.splitlines(), fromfile, tofile))`.
`difflib.unified_diff` is Python standard-library code external to this
repository; it is modelled as the arbitrary function parameter `udiff`
applied to the two contents and the two `f"{name}:{v}"` labels, since no
claim depends on the diff lines themselves. -/
def diff_blueprints (udiff : String → String → String → String → List String)
    (m : GenerationalBlueprintManager) (name v1 v2 : String) : List String :=
  match load_blueprint m name v1, load_blueprint m name v2 with
  | some b1, some b2 => udiff b1 b2 (name ++ ":" ++ v1) (name ++ ":" ++ v2)
  | _, _ => ["Error: One or both versions not found."]

/-!
`GenerationalImprovementLoop`. The loop object holds a tracker, a blueprint
manager and the current phase. Its five `phase_*` methods are ordinary
attributes resolved dynamically, and the repository's own unit tests replace
`phase_test` / `phase_apply` on an instance with lambdas; the embedding
therefore takes the four non-ADVANCE phase bodies as a `LoopPhases` record of
state transformers, with the source's concrete method bodies as
`defaultPhases`. `phase_advance` is the source's fixed body (the subject of
the claims about it). Each wall-clock read within one cycle is collapsed to
the single inputs `now` / `nowStr`, which no claim observes.
-/

/-- Mutable state of a `GenerationalImprovementLoop` object together with the
tracker and blueprint manager it drives. -/
structure LoopState where
  tracker : GenerationTracker
  blueprint_manager : GenerationalBlueprintManager
  current_phase : GenerationPhase
deriving DecidableEq, Repr

/-- The `GenerationalImprovementLoop._switch_phase`. -/
def switch_phase (st : LoopState) (phase : GenerationPhase) : LoopState :=
  { st with current_phase := phase }

/-- The overridable phase bodies (everything except ADVANCE). Each receives
its Python arguments and the loop state and returns its result mapping and
the updated state, mirroring a bound method on the loop object. -/
structure LoopPhases where
  phase_test : Dict → LoopState → Dict × LoopState
  phase_analyze : Dict → LoopState → Dict × LoopState
  phase_apply : Dict → Dict → LoopState → Dict × LoopState
  phase_validate : Dict → LoopState → Dict × LoopState

/-- The `changes` list the ADVANCE phase extracts from the APPLY result:
`apply_results.get("changes", [])` for the metric loop, and
`apply_results.get("changes")` (then `notes or []`) for the changelog — both
yield the stored list when present and `[]` when the key is absent. A
non-list `changes` value would raise `TypeError` in the source's `for` loop
and is outside the embedding. -/
def changesOf (apply_results : Dict) : List String :=
  match dictGet? apply_results "changes" with
  | some (Value.listStr cs) => cs
  | _ => []

/-- The metric logged for one applied change: name `applied_change`, value
`1`, tag `desc` carrying the change description. -/
def appliedChangeMetric (now : Nat) (change : String) : GenerationMetric :=
  { name := "applied_change", value := Value.int 1, timestamp := now
    tags := [("desc", change)] }

/-- The `GenerationalImprovementLoop.phase_advance`: switches to ADVANCE, starts
the next generation, logs one `applied_change` metric per reported change,
finalizes, and returns `{"gen_id": ..., "snapshot_id": str(snapshot.timestamp)}`. -/
def phase_advance (now : Nat) (nowStr : String) (apply_results : Dict)
    (st : LoopState) : Dict × LoopState :=
  let st := switch_phase st GenerationPhase.ADVANCE
  let (gen_id, tr) := start_next_generation st.tracker
  let tr := (changesOf apply_results).foldl
    (fun t change => log_metric t "applied_change" (Value.int 1) [("desc", change)] now) tr
  let (snapshot, tr) := finalize_generation tr ComponentStatus.STABLE
    (dictGet? apply_results "changes" |>.bind (fun v => match v with
      | Value.listStr cs => some cs
      | _ => Option.none)) nowStr
  ([("gen_id", Value.int gen_id), ("snapshot_id", Value.str snapshot.timestamp)],
   { st with tracker := tr })

/-- The `GenerationalImprovementLoop.phase_test` (source body): switches to TEST,
logs the `phase_test_duration_ms` metric, returns a fixed successful result. -/
def phase_test_default (now : Nat) (context : Dict) (st : LoopState) : Dict × LoopState :=
  let _ := context
  let st := switch_phase st GenerationPhase.TEST
  let st := { st with tracker := log_metric st.tracker "phase_test_duration_ms" (Value.int 120) [] now }
  ([("success", Value.bool true), ("coverage", Value.rat (88/100 : ℚ)),
    ("failures", Value.listStr [])], st)

/-- The `GenerationalImprovementLoop.phase_analyze` (source body): recommends
`optimize_query_speed` when coverage is below `0.9`. A missing or non-numeric
`coverage` would raise `TypeError` in the source comparison; the embedding
returns no recommendation there. -/
def phase_analyze_default (test_results : Dict) (st : LoopState) : Dict × LoopState :=
  let st := switch_phase st GenerationPhase.ANALYZE
  let recommendations : List String :=
    match dictGet? test_results "coverage" with
    | some (Value.rat q) => if q < (9/10 : ℚ) then ["optimize_query_speed"] else []
    | some (Value.int i) => if (i : ℚ) < (9/10 : ℚ) then ["optimize_query_speed"] else []
    | _ => []
  ([("recommendations", Value.listStr recommendations), ("priority", Value.str "HIGH")], st)

/-- The `GenerationalImprovementLoop.phase_apply` (source body): reports the fixed
change list. -/
def phase_apply_default (analysis context : Dict) (st : LoopState) : Dict × LoopState :=
  let _ := analysis
  let _ := context
  let st := switch_phase st GenerationPhase.APPLY
  ([("changes", Value.listStr ["Ran optimizer"]),
    ("diff_summary", Value.str "+5 lines, -2 lines")], st)

/-- The `GenerationalImprovementLoop.phase_validate` (source body): switches to
VALIDATE, logs `validation_success`, returns a fixed result. -/
def phase_validate_default (now : Nat) (advance_results : Dict) (st : LoopState) :
    Dict × LoopState :=
  let _ := advance_results
  let st := switch_phase st GenerationPhase.VALIDATE
  let st := { st with tracker := log_metric st.tracker "validation_success" (Value.int 1) [] now }
  ([("validated", Value.bool true), ("score", Value.int 100)], st)

/-- The source's own phase bodies packaged as a `LoopPhases` record. -/
def defaultPhases (now : Nat) : LoopPhases :=
  { phase_test := phase_test_default now
    phase_analyze := phase_analyze_default
    phase_apply := phase_apply_default
    phase_validate := fun d st => phase_validate_default now d st }

/-- The `GenerationalImprovementLoop.run_full_cycle` over a `LoopPhases` record:
runs TEST; aborts with only the `test` key when
`not results['test'].get('success', False)`; otherwise runs ANALYZE, APPLY,
ADVANCE (the source's fixed body) and VALIDATE in order, accumulating the
result mapping in insertion order. -/
def run_full_cycle_with (P : LoopPhases) (now : Nat) (nowStr : String)
    (context : Dict) (st : LoopState) : List (String × Dict) × LoopState :=
  let (tres, st1) := P.phase_test context st
  if (dictGetD tres "success" (Value.bool false)).truthy then
    let (ares, st2) := P.phase_analyze tres st1
    let (pres, st3) := P.phase_apply ares context st2
    let (adres, st4) := phase_advance now nowStr pres st3
    let (vres, st5) := P.phase_validate adres st4
    ([("test", tres), ("analyze", ares), ("apply", pres), ("advance", adres),
      ("validate", vres)], st5)
  else
    ([("test", tres)], st1)

/-- The `run_full_cycle` with the source's unmocked phase bodies. -/
def run_full_cycle (now : Nat) (nowStr : String) (context : Dict) (st : LoopState) :
    List (String × Dict) × LoopState :=
  run_full_cycle_with (defaultPhases now) now nowStr context st

/-!
Operation traces over one `GenerationTracker`: the four mutating methods as
an inductive alphabet, with `runOps` folding them over a state. This gives
the "any sequence of operations" quantification of the history invariants.
-/

/-- One call to a mutating `GenerationTracker` method, with its
nondeterministic inputs (clock reads, file checksums) made explicit. -/
inductive TrackerOp where
  | start : TrackerOp
  | logM : String → Value → List (String × String) → Nat → TrackerOp
  | regA : String → String → String → String → TrackerOp
  | finalize : ComponentStatus → Option (List String) → String → TrackerOp
deriving DecidableEq, Repr

/-- Apply one method call to a tracker state. -/
def applyOp (t : GenerationTracker) : TrackerOp → GenerationTracker
  | TrackerOp.start => (start_next_generation t).2
  | TrackerOp.logM name v tags now => log_metric t name v tags now
  | TrackerOp.regA name path hint sum => register_artifact t name path hint sum
  | TrackerOp.finalize status notes nowStr => (finalize_generation t status notes nowStr).2

/-- Run a sequence of method calls from a state. -/
def runOps (t : GenerationTracker) (ops : List TrackerOp) : GenerationTracker :=
  ops.foldl applyOp t

/-- Number of `finalize_generation` calls in a trace. -/
def countFinalize (ops : List TrackerOp) : Nat :=
  ops.countP (fun op => match op with
    | TrackerOp.finalize _ _ _ => true
    | _ => false)

/-- The start/finalize alternation discipline: given whether a generation is
currently open (`opened`), every `finalize` must be preceded by exactly one
`start` since the previous `finalize`. This is the documented caller
precondition for the gap-free `gen_id` numbering. -/
def okOps (opened : Bool) : List TrackerOp → Bool
  | [] => true
  | op :: rest =>
    match op with
    | TrackerOp.start => !opened && okOps true rest
    | TrackerOp.finalize _ _ _ => opened && okOps false rest
    | _ => okOps opened rest

/-!
Helper lemmas.
-/

/-- Looking up a key right after setting it in an association list finds the
new binding. -/
theorem assocSet_find? {α : Type} (l : List (String × α)) (k : String) (v : α) :
    (assocSet l k v).find? (fun kv => kv.1 == k) = some (k, v) := by
  induction l with
  | nil => simp [assocSet, List.find?]
  | cons hd tl ih =>
    unfold assocSet
    by_cases hh : (hd.1 == k) = true
    · rw [if_pos hh]
      simp [List.find?_cons]
    · rw [if_neg hh, List.find?_cons]
      have hf : (hd.1 == k) = false := by simpa using hh
      rw [hf]
      exact ih

/-!
Theorems for the claims.
-/

/-- Claim C5: `finalize_generation` leaves `current_generation`, the open metrics
working set, the open artifacts working set (and the component name)
unchanged; its only state change is appending the returned snapshot to
`history` (the persistence callback being an external observer of that
snapshot). -/
theorem finalize_generation_frame (t : GenerationTracker) (status : ComponentStatus)
    (notes : Option (List String)) (nowStr : String) :
    (finalize_generation t status notes nowStr).2.current_generation = t.current_generation ∧
    (finalize_generation t status notes nowStr).2.current_metrics = t.current_metrics ∧
    (finalize_generation t status notes nowStr).2.current_artifacts = t.current_artifacts ∧
    (finalize_generation t status notes nowStr).2.component_name = t.component_name ∧
    (finalize_generation t status notes nowStr).2.history =
      t.history ++ [(finalize_generation t status notes nowStr).1] :=
  ⟨rfl, rfl, rfl, rfl, rfl⟩

/-- A string without carriage returns is a fixed point of universal-newline
translation. -/
theorem universalNewlinesAux_of_no_cr (l : List Char) (h : Char.ofNat 13 ∉ l) :
    universalNewlinesAux false l = l := by
  induction l with
  | nil => rfl
  | cons c rest ih =>
    have hc : c ≠ Char.ofNat 13 := fun he => h (he ▸ List.mem_cons_self c rest)
    have hrest : Char.ofNat 13 ∉ rest := fun hm => h (List.mem_cons_of_mem c hm)
    unfold universalNewlinesAux
    rw [if_neg hc, if_neg (fun hand => Bool.false_ne_true hand.1), ih hrest]

/-- String version of `universalNewlinesAux_of_no_cr`. -/
theorem universalNewlines_of_no_cr (s : String) (h : Char.ofNat 13 ∉ s.data) :
    universalNewlines s = s := by
  unfold universalNewlines
  rw [universalNewlinesAux_of_no_cr s.data h]

/-- Claim C6 (amended): whenever `save_blueprint` succeeds and the saved
content contains no carriage return, `load_blueprint` with the same name and
tag returns exactly the saved content. (Content containing `"\r"` comes back
with the read side's universal-newline translation applied instead — see the
counterexample.) -/
theorem save_then_load (m : GenerationalBlueprintManager)
    (name content version_tag : String) (pm : String × GenerationalBlueprintManager)
    (hsave : save_blueprint m name content version_tag = some pm)
    (hcr : Char.ofNat 13 ∉ content.data) :
    load_blueprint pm.2 name version_tag = some content := by
  unfold save_blueprint at hsave
  by_cases hg : ((blueprint_filename name version_tag).data.contains (Char.ofNat 47) ||
      (blueprint_filename name version_tag).data.contains (Char.ofNat 0)) = true
  · rw [if_pos hg] at hsave
    simp at hsave
  · rw [if_neg hg] at hsave
    have hpm : pm = (m.storage_root ++ "/" ++ blueprint_filename name version_tag,
        { m with files := assocSet m.files (blueprint_filename name version_tag) content }) :=
      (Option.some_injective _ hsave).symm
    rw [hpm]
    unfold load_blueprint
    show ((assocSet m.files (blueprint_filename name version_tag) content).find?
        (fun kv => kv.1 == blueprint_filename name version_tag)).map
        (fun kv => universalNewlines kv.2) = some content
    rw [assocSet_find?]
    show some (universalNewlines content) = some content
    rw [universalNewlines_of_no_cr content hcr]

/-- Witness for C6 at carriage-return-free content. -/
theorem save_then_load_witness :
    ((save_blueprint ({ storage_root := "r", files := [] }) "P" "hello" "v1").bind
      (fun pm => load_blueprint pm.2 "P" "v1")) = some "hello" := by
  have h := save_then_load ({ storage_root := "r", files := [] }) "P" "hello" "v1"
    _ rfl (by decide)
  exact h

/-- Claim C6 counterexample: saving content containing `"\r\n"` and loading
it back returns the universal-newline-translated string, not the saved one:
the exact round-trip fails for content with carriage returns. -/
theorem save_then_load_counterexample :
    ((save_blueprint ({ storage_root := "r", files := [] }) "P" "a\r\nb" "v1").bind
      (fun pm => load_blueprint pm.2 "P" "v1")) = some "a\nb" ∧
    ("a\nb" : String) ≠ "a\r\nb" := by
  constructor
  · decide
  · decide

/-- Claim C7: `diff_blueprints` with either version absent returns the
single-element error-message sequence (for every diff algorithm, store and
names) and does not throw; and `load_blueprint` on an absent version returns
the not-found sentinel `none` rather than raising. -/
theorem diff_blueprints_missing (udiff : String → String → String → String → List String)
    (m : GenerationalBlueprintManager) (name v1 v2 : String)
    (h : load_blueprint m name v1 = Option.none ∨ load_blueprint m name v2 = Option.none) :
    diff_blueprints udiff m name v1 v2 = ["Error: One or both versions not found."] ∧
    ∀ (m' : GenerationalBlueprintManager) (n t : String),
      m'.files.find? (fun kv => kv.1 == blueprint_filename n t) = Option.none →
      load_blueprint m' n t = Option.none := by
  constructor
  · unfold diff_blueprints
    rcases h with h | h
    · rw [h]
    · rw [h]
      cases load_blueprint m name v1 <;> rfl
  · intro m' n t hnone
    unfold load_blueprint
    rw [hnone]
    rfl

/-- Witness for C7 at a concrete empty store. -/
theorem diff_blueprints_missing_witness :
    diff_blueprints (fun _ _ _ _ => [])
      ({ storage_root := "r", files := [] }) "p" "v1" "v2" =
      ["Error: One or both versions not found."] ∧
    load_blueprint ({ storage_root := "r", files := [] } :
      GenerationalBlueprintManager) "p" "v1" = Option.none := by
  have h := diff_blueprints_missing (fun _ _ _ _ => [])
    ({ storage_root := "r", files := [] }) "p" "v1" "v2" (Or.inl rfl)
  exact ⟨h.1, h.2 ({ storage_root := "r", files := [] }) "p" "v1" rfl⟩

/-- Claim C10 (amended): the storage identifier `name ++ "_v" ++ tag ++ ".kl"`
is not injective in `(name, tag)`: the distinct pairs `("a_vb", "c")` and
`("a", "b_vc")` share one storage location, so saving under the second
overwrites the first, and loading the first afterwards returns the second's
content — exactly, whenever that content contains no carriage return (content
with `"\r"` comes back newline-translated; see the counterexample). -/
theorem blueprint_filename_collision :
    blueprint_filename "a_vb" "c" = blueprint_filename "a" "b_vc" ∧
    (("a_vb", "c") : String × String) ≠ ("a", "b_vc") ∧
    ∀ (m : GenerationalBlueprintManager) (c1 c2 : String)
      (pm pm2 : String × GenerationalBlueprintManager),
      save_blueprint m "a_vb" c1 "c" = some pm →
      save_blueprint pm.2 "a" c2 "b_vc" = some pm2 →
      Char.ofNat 13 ∉ c2.data →
      load_blueprint pm2.2 "a_vb" "c" = some c2 := by
  refine ⟨rfl, by decide, ?_⟩
  intro m c1 c2 pm pm2 hs1 hs2 hcr
  have h := save_then_load pm.2 "a" c2 "b_vc" pm2 hs2 hcr
  unfold load_blueprint at h ⊢
  rw [show blueprint_filename "a_vb" "c" = blueprint_filename "a" "b_vc" from rfl]
  exact h

/-- Witness for C10: both saves succeed and the colliding load returns the
second content. -/
theorem blueprint_filename_collision_witness :
    ((save_blueprint ({ storage_root := "r", files := [] }) "a_vb" "A" "c").bind
      (fun pm => (save_blueprint pm.2 "a" "B" "b_vc").bind
        (fun pm2 => load_blueprint pm2.2 "a_vb" "c"))) = some "B" := by
  have h := (blueprint_filename_collision).2.2 ({ storage_root := "r", files := [] })
    "A" "B" _ _ rfl rfl (by decide)
  exact h

/-- Claim C10 counterexample: with second content `"x\ry"`, the colliding
load returns the newline-translated `"x\ny"`, not the saved `C2`, so the
claim's `load_blueprint(n1, t1)` returns `C2` fails for content with
carriage returns. -/
theorem blueprint_filename_collision_counterexample :
    ((save_blueprint ({ storage_root := "r", files := [] }) "a_vb" "A" "c").bind
      (fun pm => (save_blueprint pm.2 "a" "x\ry" "b_vc").bind
        (fun pm2 => load_blueprint pm2.2 "a_vb" "c"))) = some "x\ny" ∧
    ("x\ny" : String) ≠ "x\ry" := by
  constructor
  · decide
  · decide

/-- The parent-link shape of a history list: the first snapshot has no
parent, and each later snapshot's `parent_gen_id` is the previous snapshot's
`gen_id`. -/
def parent_linked (history : List GenerationSnapshot) : Prop :=
  (∀ h0 : 0 < history.length, history[0].parent_gen_id = Option.none) ∧
  ∀ i (hi : i + 1 < history.length),
    history[i + 1].parent_gen_id = some history[i].gen_id

/-- Appending a snapshot whose parent is the last entry's `gen_id` preserves
the parent-link shape. -/
theorem parent_linked_append (h : List GenerationSnapshot) (snap : GenerationSnapshot)
    (hp : snap.parent_gen_id = h.getLast?.map (fun s => s.gen_id))
    (hl : parent_linked h) : parent_linked (h ++ [snap]) := by
  constructor
  · intro h0
    by_cases hne : 0 < h.length
    · rw [List.getElem_append_left hne]
      exact hl.1 hne
    · have hz : h.length = 0 := by omega
      have he : h = [] := List.length_eq_zero.mp hz
      subst he
      simpa using hp
  · intro i hi
    simp only [List.length_append, List.length_singleton] at hi
    by_cases hlt : i + 1 < h.length
    · rw [List.getElem_append_left hlt,
        List.getElem_append_left (Nat.lt_of_succ_lt hlt)]
      exact hl.2 i hlt
    · have hieq : i + 1 = h.length := by omega
      have hin : i < h.length := by omega
      rw [List.getElem_concat_length h snap (i + 1) hieq, List.getElem_append_left hin]
      rw [hp, List.getLast?_eq_getElem?]
      have : h.length - 1 = i := by omega
      rw [this, List.getElem?_eq_getElem hin]
      rfl

/-- Every tracker method call preserves the parent-link shape of the
history. -/
theorem applyOp_parent_linked (t : GenerationTracker) (op : TrackerOp)
    (hl : parent_linked t.history) : parent_linked (applyOp t op).history := by
  cases op with
  | start => exact hl
  | logM name v tags now => exact hl
  | regA name path hint sum => exact hl
  | finalize status notes nowStr =>
    exact parent_linked_append t.history _ rfl hl

/-- The parent-link shape is preserved by every method-call trace. -/
theorem runOps_parent_linked (ops : List TrackerOp) (t : GenerationTracker)
    (hl : parent_linked t.history) : parent_linked (runOps t ops).history := by
  induction ops generalizing t with
  | nil => exact hl
  | cons op rest ih => exact ih (applyOp t op) (applyOp_parent_linked t op hl)

/-- Claim C2: for every tracker state reachable by any sequence of method calls,
the snapshot at history index `i > 0` has `parent_gen_id` equal to the
`gen_id` of the snapshot at index `i-1`, and the snapshot at index 0 has
`parent_gen_id = null`. -/
theorem history_parent_linked (name : String) (ops : List TrackerOp) :
    parent_linked (runOps (GenerationTracker.init name) ops).history := by
  refine runOps_parent_linked ops _ ⟨?_, ?_⟩
  · intro h0
    simp [GenerationTracker.init] at h0
  · intro i hi
    simp [GenerationTracker.init] at hi

/-- Witness for C2: after two `finalize_generation` calls, the second
snapshot's parent is the first snapshot's `gen_id`. -/
theorem history_parent_linked_witness :
    ((runOps (GenerationTracker.init "C")
        [TrackerOp.finalize ComponentStatus.STABLE Option.none "t1",
         TrackerOp.finalize ComponentStatus.STABLE Option.none "t2"]).history.get
      ⟨1, by decide⟩).parent_gen_id =
    some ((runOps (GenerationTracker.init "C")
        [TrackerOp.finalize ComponentStatus.STABLE Option.none "t1",
         TrackerOp.finalize ComponentStatus.STABLE Option.none "t2"]).history.get
      ⟨0, by decide⟩).gen_id := by
  exact (history_parent_linked "C"
    [TrackerOp.finalize ComponentStatus.STABLE Option.none "t1",
     TrackerOp.finalize ComponentStatus.STABLE Option.none "t2"]).2 0 (by decide)

/-- Gap-free numbering invariant: running a disciplined trace from a state
whose history is numbered `1..n` from index 0 and whose counter agrees with
the open flag adds one snapshot per finalize and keeps the numbering. -/
theorem runOps_numbering (ops : List TrackerOp) (t : GenerationTracker) (opened : Bool)
    (hok : okOps opened ops = true)
    (hcur : t.current_generation = t.history.length + cond opened 1 0)
    (hidx : ∀ i (hi : i < t.history.length), t.history[i].gen_id = i + 1) :
    (runOps t ops).history.length = t.history.length + countFinalize ops ∧
    ∀ i (hi : i < (runOps t ops).history.length),
      (runOps t ops).history[i].gen_id = i + 1 := by
  induction ops generalizing t opened with
  | nil => exact ⟨by simp [runOps, countFinalize], hidx⟩
  | cons op rest ih =>
    have hrun : runOps t (op :: rest) = runOps (applyOp t op) rest := rfl
    cases op with
    | start =>
      simp only [okOps, Bool.and_eq_true, Bool.not_eq_true'] at hok
      obtain ⟨hopen, hok'⟩ := hok
      subst hopen
      simp only [cond] at hcur
      have hcur' : (applyOp t TrackerOp.start).current_generation =
          (applyOp t TrackerOp.start).history.length + cond true 1 0 := by
        simp [applyOp, start_next_generation, hcur]
      have hres := ih (applyOp t TrackerOp.start) true hok' hcur' hidx
      rw [hrun]
      refine ⟨?_, hres.2⟩
      rw [hres.1]
      simp [countFinalize, List.countP_cons, applyOp, start_next_generation]
    | logM mname v tags now =>
      simp only [okOps] at hok
      have hres := ih (applyOp t (TrackerOp.logM mname v tags now)) opened hok hcur hidx
      rw [hrun]
      refine ⟨?_, hres.2⟩
      rw [hres.1]
      simp [countFinalize, List.countP_cons, applyOp, log_metric]
    | regA aname path hint sum =>
      simp only [okOps] at hok
      have hres := ih (applyOp t (TrackerOp.regA aname path hint sum)) opened hok hcur hidx
      rw [hrun]
      refine ⟨?_, hres.2⟩
      rw [hres.1]
      simp [countFinalize, List.countP_cons, applyOp, register_artifact]
    | finalize status notes nowStr =>
      simp only [okOps, Bool.and_eq_true] at hok
      obtain ⟨hopen, hok'⟩ := hok
      subst hopen
      simp only [cond] at hcur
      have hlen : (applyOp t (TrackerOp.finalize status notes nowStr)).history.length =
          t.history.length + 1 := by
        simp [applyOp, finalize_generation]
      have hcur' : (applyOp t (TrackerOp.finalize status notes nowStr)).current_generation =
          (applyOp t (TrackerOp.finalize status notes nowStr)).history.length + cond false 1 0 := by
        rw [hlen]
        simpa [applyOp, finalize_generation] using hcur
      have hidx' : ∀ i (hi : i <
          (applyOp t (TrackerOp.finalize status notes nowStr)).history.length),
          (applyOp t (TrackerOp.finalize status notes nowStr)).history[i].gen_id = i + 1 := by
        intro i hi
        rw [hlen] at hi
        by_cases hlt : i < t.history.length
        · show (t.history ++ [(finalize_generation t status notes nowStr).1])[i].gen_id = i + 1
          rw [List.getElem_append_left hlt]
          exact hidx i hlt
        · have hieq : i = t.history.length := by omega
          show (t.history ++ [(finalize_generation t status notes nowStr).1])[i].gen_id = i + 1
          rw [List.getElem_concat_length t.history _ i hieq]
          show t.current_generation = i + 1
          omega
      have hres := ih (applyOp t (TrackerOp.finalize status notes nowStr)) false hok' hcur' hidx'
      rw [hrun]
      refine ⟨?_, hres.2⟩
      rw [hres.1, hlen]
      simp [countFinalize, List.countP_cons]
      omega

/-- History grows by exactly one snapshot per `finalize_generation` call, for
every trace. -/
theorem runOps_history_length (ops : List TrackerOp) (t : GenerationTracker) :
    (runOps t ops).history.length = t.history.length + countFinalize ops := by
  induction ops generalizing t with
  | nil => simp [runOps, countFinalize]
  | cons op rest ih =>
    have hrun : runOps t (op :: rest) = runOps (applyOp t op) rest := rfl
    rw [hrun, ih]
    cases op <;>
      (simp [applyOp, countFinalize, List.countP_cons, start_next_generation,
        log_metric, register_artifact, finalize_generation]
       try omega)

/-- Claim C1 (amended): `current_generation` starts at 0 and increases by exactly 1
per `start_next_generation` call, and history length equals the number of
`finalize_generation` calls, for every sequence of operations; the `gen_id`
values in history equal index+1 (the strictly increasing sequence 1, 2, 3, …)
for every sequence in which starts and finalizes strictly alternate beginning
with a start, i.e. every finalize is preceded by exactly one start since the
previous finalize. -/
theorem generation_numbering (name : String) :
    (GenerationTracker.init name).current_generation = 0 ∧
    (∀ t : GenerationTracker,
      (start_next_generation t).2.current_generation = t.current_generation + 1) ∧
    (∀ ops : List TrackerOp,
      (runOps (GenerationTracker.init name) ops).history.length = countFinalize ops) ∧
    ∀ ops : List TrackerOp, okOps false ops = true →
      ∀ i (hi : i < (runOps (GenerationTracker.init name) ops).history.length),
        (runOps (GenerationTracker.init name) ops).history[i].gen_id = i + 1 := by
  refine ⟨rfl, fun t => rfl, ?_, ?_⟩
  · intro ops
    simpa [GenerationTracker.init] using runOps_history_length ops (GenerationTracker.init name)
  · intro ops hok i hi
    refine (runOps_numbering ops (GenerationTracker.init name) false hok rfl ?_).2 i hi
    intro j hj
    simp [GenerationTracker.init] at hj

/-- Witness for C1 at the disciplined trace start; finalize. -/
theorem generation_numbering_witness :
    (runOps (GenerationTracker.init "C")
      [TrackerOp.start,
       TrackerOp.finalize ComponentStatus.STABLE Option.none "t"]).history.length =
      countFinalize [TrackerOp.start,
        TrackerOp.finalize ComponentStatus.STABLE Option.none "t"] ∧
    ((runOps (GenerationTracker.init "C")
      [TrackerOp.start,
       TrackerOp.finalize ComponentStatus.STABLE Option.none "t"]).history.get
        ⟨0, by decide⟩).gen_id = 0 + 1 := by
  refine ⟨(generation_numbering "C").2.2.1 _, ?_⟩
  exact (generation_numbering "C").2.2.2 _ (by decide) 0 (by decide)

/-- Claim C1 counterexample: calling `finalize_generation` on a fresh tracker with
no `start_next_generation` produces a history whose single snapshot has
`gen_id = 0`, not index+1 = 1, so the numbering part of the claim fails for
that sequence of operations. -/
theorem generation_numbering_counterexample :
    (runOps (GenerationTracker.init "C")
      [TrackerOp.finalize ComponentStatus.STABLE Option.none "t"]).history.map
        GenerationSnapshot.gen_id = [0] ∧
    ¬ ∀ i (hi : i < (runOps (GenerationTracker.init "C")
          [TrackerOp.finalize ComponentStatus.STABLE Option.none "t"]).history.length),
        (runOps (GenerationTracker.init "C")
          [TrackerOp.finalize ComponentStatus.STABLE Option.none "t"]).history[i].gen_id =
          i + 1 := by
  constructor
  · rfl
  · intro hall
    exact absurd (hall 0 (by decide)) (by decide)

/-- The pair a snapshot with a metric named `metric_name` contributes to the
trend: its `gen_id` with the value of the first matching metric (the `none`
branch is never reached on snapshots that pass the existence filter). -/
def firstMetricPair (metric_name : String) (s : GenerationSnapshot) : Nat × Value :=
  match s.metrics.find? (fun m => m.name == metric_name) with
  | some m => (s.gen_id, m.value)
  | Option.none => (s.gen_id, Value.none)

/-- The trend pair of a snapshot carries that snapshot's `gen_id`. -/
theorem firstMetricPair_fst (x : String) (s : GenerationSnapshot) :
    (firstMetricPair x s).1 = s.gen_id := by
  unfold firstMetricPair
  cases s.metrics.find? (fun m => m.name == x) <;> rfl

/-- The `get_metric_trend` keeps exactly the snapshots that have at least one
metric with the given name, each contributing its first such metric's value. -/
theorem get_metric_trend_eq (history : List GenerationSnapshot) (x : String) :
    get_metric_trend history x =
      (history.filter (fun s => s.metrics.any (fun m => m.name == x))).map
        (firstMetricPair x) := by
  induction history with
  | nil => rfl
  | cons snap rest ih =>
    unfold get_metric_trend
    cases hf : snap.metrics.find? (fun m => m.name == x) with
    | some mm =>
      have hp := List.find?_some hf
      have hany : snap.metrics.any (fun m => m.name == x) = true :=
        List.any_eq_true.mpr ⟨mm, List.mem_of_find?_eq_some hf, hp⟩
      have hpair : firstMetricPair x snap = (snap.gen_id, mm.value) := by
        unfold firstMetricPair
        rw [hf]
      simp [List.filter_cons, hany, hpair, ih]
    | none =>
      have hany : snap.metrics.any (fun m => m.name == x) = false :=
        List.any_eq_false.mpr (fun a ha => by
          have := List.find?_eq_none.mp hf a ha
          simpa using this)
      simp [List.filter_cons, hany, ih]

/-- Claim C8: for every history and metric name `x`, `get_metric_trend x` returns
exactly one `(gen_id, value)` pair per snapshot containing at least one
metric named `x`, with the value of the first such metric in logging order,
snapshots without one contributing nothing; and when the history's `gen_id`
values are strictly increasing (the well-formed tracker invariant) the pairs
appear in strictly ascending `gen_id` order. -/
theorem get_metric_trend_spec (history : List GenerationSnapshot) (x : String)
    (hasc : history.Pairwise (fun a b => a.gen_id < b.gen_id)) :
    get_metric_trend history x =
      (history.filter (fun s => s.metrics.any (fun m => m.name == x))).map
        (firstMetricPair x) ∧
    (get_metric_trend history x).Pairwise (fun p q => p.1 < q.1) := by
  refine ⟨get_metric_trend_eq history x, ?_⟩
  rw [get_metric_trend_eq history x]
  rw [List.pairwise_map]
  have hfilter := List.Pairwise.filter
    (fun s => s.metrics.any (fun m => m.name == x)) hasc
  refine hfilter.imp ?_
  intro a b hab
  rw [firstMetricPair_fst, firstMetricPair_fst]
  exact hab

/-- A concrete tracker history for the C8 witness: generation 1 logs `x`
twice, generation 2 logs only `y`. -/
def trendSampleHistory : List GenerationSnapshot :=
  (runOps (GenerationTracker.init "C")
    [TrackerOp.start,
     TrackerOp.logM "x" (Value.int 5) [] 0,
     TrackerOp.logM "x" (Value.int 6) [] 1,
     TrackerOp.finalize ComponentStatus.STABLE Option.none "t1",
     TrackerOp.start,
     TrackerOp.logM "y" (Value.int 7) [] 2,
     TrackerOp.finalize ComponentStatus.STABLE Option.none "t2"]).history

/-- Witness for C8 on `trendSampleHistory`. -/
theorem get_metric_trend_spec_witness :
    get_metric_trend trendSampleHistory "x" =
      (trendSampleHistory.filter (fun s => s.metrics.any (fun m => m.name == "x"))).map
        (firstMetricPair "x") ∧
    (get_metric_trend trendSampleHistory "x").Pairwise (fun p q => p.1 < q.1) :=
  get_metric_trend_spec trendSampleHistory "x" (by decide)

/-- The state assembled by `create_default_pipeline`: a fresh tracker, an
empty blueprint directory, and initial phase TEST (as set by
`GenerationalImprovementLoop.__init__`). -/
def initLoop (name root : String) : LoopState :=
  { tracker := GenerationTracker.init name
    blueprint_manager := { storage_root := root, files := [] }
    current_phase := GenerationPhase.TEST }

/-- Folding the ADVANCE phase's `log_metric` loop appends one
`applied_change` metric per change. -/
theorem foldl_log_applied_change (cs : List String) (tr : GenerationTracker) (now : Nat) :
    cs.foldl
      (fun t change => log_metric t "applied_change" (Value.int 1) [("desc", change)] now)
      tr =
    { tr with current_metrics := tr.current_metrics ++ cs.map (appliedChangeMetric now) } := by
  induction cs generalizing tr with
  | nil => simp
  | cons c cs ih =>
    rw [List.foldl_cons, ih]
    simp [log_metric, appliedChangeMetric]

/-- The changelog option the ADVANCE phase passes to `finalize_generation`
defaults to the same list `changesOf` extracts. -/
theorem advance_notes_eq (apply_results : Dict) :
    ((dictGet? apply_results "changes").bind (fun v => match v with
      | Value.listStr cs => some cs
      | _ => Option.none)).getD [] = changesOf apply_results := by
  unfold changesOf
  cases dictGet? apply_results "changes" with
  | none => rfl
  | some v => cases v <;> rfl

/-- The tracker state after the ADVANCE phase: counter advanced, working set
holding one `applied_change` metric per change, and the snapshot appended. -/
def advancedTracker (now : Nat) (apply_results : Dict) (snap : GenerationSnapshot)
    (t : GenerationTracker) : GenerationTracker :=
  { t with current_generation := t.current_generation + 1
           current_metrics := (changesOf apply_results).map (appliedChangeMetric now)
           current_artifacts := []
           history := t.history ++ [snap] }

/-- What `phase_advance` does to the loop state: the phase becomes ADVANCE,
the counter advances by one, and the tracker gains exactly one snapshot whose
changelog is the APPLY phase's reported change list and whose metrics are one
`applied_change` entry per change. -/
theorem phase_advance_spec (now : Nat) (nowStr : String) (apply_results : Dict)
    (st : LoopState) :
    ∃ snap : GenerationSnapshot,
      (phase_advance now nowStr apply_results st).2 =
        { st with current_phase := GenerationPhase.ADVANCE,
                  tracker := advancedTracker now apply_results snap st.tracker } ∧
      snap.changelog = changesOf apply_results ∧
      snap.metrics = (changesOf apply_results).map (appliedChangeMetric now) ∧
      snap.gen_id = st.tracker.current_generation + 1 := by
  refine ⟨{ gen_id := st.tracker.current_generation + 1
            component_name := st.tracker.component_name
            timestamp := nowStr
            status := ComponentStatus.STABLE
            metrics := (changesOf apply_results).map (appliedChangeMetric now)
            artifacts := []
            changelog := changesOf apply_results
            parent_gen_id := (st.tracker.history.getLast?).map (fun s => s.gen_id) },
    ?_, rfl, rfl, rfl⟩
  simp only [phase_advance, switch_phase, start_next_generation, advancedTracker]
  rw [foldl_log_applied_change]
  simp only [finalize_generation, advance_notes_eq, List.nil_append]

/-- Claim C3: for every context and every TEST result with a true `success` flag —
the four overridable phase bodies being arbitrary as long as only ADVANCE
touches the generation counter and the history — `run_full_cycle` runs all
five phases in the order TEST, ANALYZE, APPLY, ADVANCE, VALIDATE; afterwards
`current_generation` has increased by exactly 1 and the history has exactly
one new entry, whose changelog is the APPLY phase's reported change list and
whose metrics are exactly one `applied_change` metric of value 1 tagged with
the change description, per change, in order. -/
theorem run_full_cycle_success (P : LoopPhases) (now : Nat) (nowStr : String)
    (ctx : Dict) (st : LoopState) (tres : Dict) (st1 : LoopState)
    (ares : Dict) (st2 : LoopState) (pres : Dict) (st3 : LoopState)
    (adres : Dict) (st4 : LoopState) (vres : Dict) (st5 : LoopState)
    (ht : P.phase_test ctx st = (tres, st1))
    (hsucc : (dictGetD tres "success" (Value.bool false)).truthy = true)
    (ha : P.phase_analyze tres st1 = (ares, st2))
    (hp : P.phase_apply ares ctx st2 = (pres, st3))
    (hadv : phase_advance now nowStr pres st3 = (adres, st4))
    (hv : P.phase_validate adres st4 = (vres, st5))
    (frameT : st1.tracker.current_generation = st.tracker.current_generation ∧
      st1.tracker.history = st.tracker.history)
    (frameA : st2.tracker.current_generation = st1.tracker.current_generation ∧
      st2.tracker.history = st1.tracker.history)
    (frameP : st3.tracker.current_generation = st2.tracker.current_generation ∧
      st3.tracker.history = st2.tracker.history)
    (frameV : st5.tracker.current_generation = st4.tracker.current_generation ∧
      st5.tracker.history = st4.tracker.history) :
    run_full_cycle_with P now nowStr ctx st =
      ([("test", tres), ("analyze", ares), ("apply", pres), ("advance", adres),
        ("validate", vres)], st5) ∧
    st5.tracker.current_generation = st.tracker.current_generation + 1 ∧
    ∃ snap : GenerationSnapshot,
      st5.tracker.history = st.tracker.history ++ [snap] ∧
      snap.changelog = changesOf pres ∧
      snap.metrics = (changesOf pres).map (appliedChangeMetric now) := by
  obtain ⟨snap, hst4, hlog, hmet, hgid⟩ := phase_advance_spec now nowStr pres st3
  have h4 : st4 =
      { st3 with current_phase := GenerationPhase.ADVANCE,
                 tracker := advancedTracker now pres snap st3.tracker } := by
    rw [← hst4, hadv]
  refine ⟨?_, ?_, ?_⟩
  · simp only [run_full_cycle_with, ht, ha, hp, hadv, hv, hsucc, if_true]
  · rw [frameV.1, h4]
    show st3.tracker.current_generation + 1 = st.tracker.current_generation + 1
    rw [frameP.1, frameA.1, frameT.1]
  · refine ⟨snap, ?_, hlog, hmet⟩
    rw [frameV.2, h4]
    show st3.tracker.history ++ [snap] = st.tracker.history ++ [snap]
    rw [frameP.2, frameA.2, frameT.2]

/-- The pure phase overrides the repository unit test installs
(`phase_test` and `phase_apply` replaced by lambdas; ANALYZE and VALIDATE
results are irrelevant to the claims). -/
def mockPhases : LoopPhases :=
  { phase_test := fun _ st => ([("success", Value.bool true)], st)
    phase_analyze := fun _ st => ([], st)
    phase_apply := fun _ _ st => ([("changes", Value.listStr ["mock_change"])], st)
    phase_validate := fun _ st => ([], st) }

/-- Witness for C3 with the unit-test style mocked phases. -/
theorem run_full_cycle_success_witness :
    (run_full_cycle_with mockPhases 0 "t" [] (initLoop "C" "r")).1.map Prod.fst =
      ["test", "analyze", "apply", "advance", "validate"] ∧
    (run_full_cycle_with mockPhases 0 "t" [] (initLoop "C" "r")).2.tracker.current_generation =
      (initLoop "C" "r").tracker.current_generation + 1 := by
  have h := run_full_cycle_success mockPhases 0 "t" [] (initLoop "C" "r")
    _ _ _ _ _ _ _ _ _ _ rfl (by decide) rfl rfl rfl rfl
    ⟨rfl, rfl⟩ ⟨rfl, rfl⟩ ⟨rfl, rfl⟩ ⟨rfl, rfl⟩
  rw [h.1]
  exact ⟨rfl, h.2.1⟩

/-- A present `success` key determines `get("success", False)`. -/
theorem dictGetD_of_get? (d : Dict) (k : String) (v default : Value)
    (h : dictGet? d k = some v) : dictGetD d k default = v := by
  unfold dictGetD
  unfold dictGet? at h
  cases hfind : d.find? (fun kv => kv.1 == k) with
  | none => rw [hfind] at h; simp at h
  | some kv =>
    rw [hfind] at h
    exact Option.some_injective Value (h : Option.some kv.2 = some v)

/-- Claim C4: if the TEST phase reports `success = false`, `run_full_cycle` returns
a mapping containing only the `test` key (no later phase runs), and — the
TEST phase touching neither counter nor history, as the source body does
not — the tracker's `current_generation` and `history` are unchanged. -/
theorem run_full_cycle_abort (P : LoopPhases) (now : Nat) (nowStr : String)
    (ctx : Dict) (st : LoopState) (tres : Dict) (st1 : LoopState)
    (ht : P.phase_test ctx st = (tres, st1))
    (hfail : dictGet? tres "success" = some (Value.bool false))
    (frameT : st1.tracker.current_generation = st.tracker.current_generation ∧
      st1.tracker.history = st.tracker.history) :
    run_full_cycle_with P now nowStr ctx st = ([("test", tres)], st1) ∧
    (run_full_cycle_with P now nowStr ctx st).2.tracker.current_generation =
      st.tracker.current_generation ∧
    (run_full_cycle_with P now nowStr ctx st).2.tracker.history =
      st.tracker.history := by
  have hD : (dictGetD tres "success" (Value.bool false)).truthy = false := by
    rw [dictGetD_of_get? tres "success" (Value.bool false) (Value.bool false) hfail]
    rfl
  have hrun : run_full_cycle_with P now nowStr ctx st = ([("test", tres)], st1) := by
    simp only [run_full_cycle_with, ht, hD, Bool.false_eq_true, if_false]
  refine ⟨hrun, ?_, ?_⟩
  · rw [hrun]
    exact frameT.1
  · rw [hrun]
    exact frameT.2

/-- The unit-test style mocks with TEST overridden to report failure. -/
def failPhases : LoopPhases :=
  { mockPhases with phase_test := fun _ st => ([("success", Value.bool false)], st) }

/-- Witness for C4 with a failing TEST phase. -/
theorem run_full_cycle_abort_witness :
    run_full_cycle_with failPhases 0 "t" [] (initLoop "C" "r") =
      ([("test", [("success", Value.bool false)])], initLoop "C" "r") ∧
    (run_full_cycle_with failPhases 0 "t" [] (initLoop "C" "r")).2.tracker.current_generation =
      (initLoop "C" "r").tracker.current_generation := by
  have h := run_full_cycle_abort failPhases 0 "t" [] (initLoop "C" "r")
    _ _ rfl rfl ⟨rfl, rfl⟩
  exact ⟨h.1, h.2.1⟩

/-- Claim C9 (amended): a TEST result whose `success` key is missing, or maps to a
falsy value (`False`, `0`, `0.0`, `""`, an empty list, `None`), aborts the
cycle exactly like an explicit failure: the returned mapping contains only
the `test` key. (A truthy non-`True` value such as `2` does NOT abort; see
the counterexample.) -/
theorem run_full_cycle_falsy_success (P : LoopPhases) (now : Nat) (nowStr : String)
    (ctx : Dict) (st : LoopState) (tres : Dict) (st1 : LoopState)
    (ht : P.phase_test ctx st = (tres, st1))
    (hfalsy : (dictGetD tres "success" (Value.bool false)).truthy = false) :
    run_full_cycle_with P now nowStr ctx st = ([("test", tres)], st1) := by
  simp only [run_full_cycle_with, ht, hfalsy, Bool.false_eq_true, if_false]

/-- The unit-test style mocks with TEST returning a mapping without any
`success` key. -/
def noSuccessPhases : LoopPhases :=
  { mockPhases with phase_test := fun _ st => ([], st) }

/-- Witness for C9 with a TEST result lacking the `success` key. -/
theorem run_full_cycle_falsy_success_witness :
    run_full_cycle_with noSuccessPhases 0 "t" [] (initLoop "C" "r") =
      ([("test", [])], initLoop "C" "r") :=
  run_full_cycle_falsy_success noSuccessPhases 0 "t" [] (initLoop "C" "r")
    _ _ rfl rfl

/-- The unit-test style mocks with TEST reporting `success = 2`: a value that
is neither `True` nor falsy. -/
def truthyIntPhases : LoopPhases :=
  { mockPhases with phase_test := fun _ st => ([("success", Value.int 2)], st) }

/-- Claim C9 counterexample: with `success = 2` — a non-`True` value — the cycle
does not abort: all five phases run and the result mapping is not just
`test`, contradicting the claim that any non-true value aborts. -/
theorem run_full_cycle_falsy_success_counterexample :
    (run_full_cycle_with truthyIntPhases 0 "t" [] (initLoop "C" "r")).1.map Prod.fst =
      ["test", "analyze", "apply", "advance", "validate"] ∧
    (run_full_cycle_with truthyIntPhases 0 "t" [] (initLoop "C" "r")).1.map Prod.fst ≠
      ["test"] := by
  constructor
  · decide
  · decide
